import Mathlib

/-!
# Verification of the Buzz session-coordination engine

Shallow embedding of the room state machine of the Buzz repository
(`src/context/RoomContext.tsx`, `src/components/BuzzButton.tsx` and the
audio-player component), together with proofs about the buzz-race gate,
scoring, countdown, turn rotation and host-authority guards.

JavaScript optional fields are modelled with `Option`; the JS `x || d`
defaulting idiom (which also replaces `0`, `""` and `false` by the default)
is modelled explicitly by the `jsOr*` helpers.  JS objects used as
string-keyed maps (`players`, `songAttempts`) are modelled as association
lists in insertion order, matching `Object.keys` enumeration order for
non-numeric string keys.
-/

namespace Buzz

/-- JS `x || d` on an optional number: `undefined` and `0` both yield `d`. -/
def jsOrInt (o : Option Int) (d : Int) : Int :=
  match o with
  | none => d
  | some v => if v = 0 then d else v

/-- JS `x || d` on an optional natural number. -/
def jsOrNat (o : Option Nat) (d : Nat) : Nat :=
  match o with
  | none => d
  | some v => if v = 0 then d else v

/-- JS `s || d` on an optional string: `undefined` and `""` both yield `d`. -/
def jsOrStr (o : Option String) (d : String) : String :=
  match o with
  | none => d
  | some s => if s = "" then d else s

/-- JS truthiness of an optional boolean (`undefined` is falsy). -/
def jsTruthy (o : Option Bool) : Bool := o.getD false

/-- JS truthiness of an optional string (`undefined` and `""` are falsy). -/
def jsTruthyStr (o : Option String) : Bool :=
  match o with
  | none => false
  | some s => s != ""

/-- `Player` record (RoomContext.tsx lines 24-36). -/
structure Player where
  name : String
  isHost : Bool
  joinedAt : Nat := 0
  points : Option Int := none
  team : Option String := none
  currentStreak : Option Int := none
  bestStreak : Option Int := none
  correctAnswers : Option Int := none
  wrongAnswers : Option Int := none
  lastAnswerTime : Option Nat := none
deriving Repr, DecidableEq

/-- `WinnerInfo` record (RoomContext.tsx lines 38-44). -/
structure WinnerInfo where
  playerId : String
  playerName : String
  timestamp : Nat
  answer : Option String := none
  timeLeft : Option Int := none
deriving Repr, DecidableEq

/-- The six mode tags (RoomContext.tsx line 47). -/
inductive GameModeType
  | classic
  | speed
  | turnBased
  | teams
  | easy
  | expert
deriving Repr, DecidableEq

/-- `GameModeSettings` (RoomContext.tsx lines 53-63). -/
structure GameModeSettings where
  timeLimit : Option Int := none
  autoNext : Option Bool := none
  teamsEnabled : Option Bool := none
  pointsCorrect : Option Int := none
  pointsWrong : Option Int := none
  buzzDelaySeconds : Option Int := none
  oneAttemptPerSong : Option Bool := none
  turnBasedEnabled : Option Bool := none
  turnAdvantageSeconds : Option Int := none
deriving Repr, DecidableEq

/-- `GameMode` (RoomContext.tsx lines 46-51). -/
structure GameMode where
  type : GameModeType
  name : String
  description : String
  settings : GameModeSettings
deriving Repr, DecidableEq

/-- `currentTurn` substate (RoomContext.tsx lines 90-98). -/
structure CurrentTurn where
  playerId : String
  playerName : String
  turnNumber : Nat
  startTime : Nat
  advantagePhase : Bool
  turnOrder : Option (List (String × String)) := none
  nextPlayerIndex : Option Nat := none
deriving Repr, DecidableEq

/-- The countdown node stored at `rooms/{code}/countdown`
(RoomContext.tsx lines 1030-1055). -/
structure CountdownData where
  isActive : Bool
  value : Nat
  startTime : Option Nat := none
deriving Repr, DecidableEq

/-- `RoomData` (RoomContext.tsx lines 79-99), extended with the countdown
node that lives under the same room path in the store. -/
structure RoomData where
  hostName : String := ""
  createdAt : Nat := 0
  winnerInfo : Option WinnerInfo := none
  players : List (String × Player) := []
  gameMode : Option GameMode := none
  currentSong : Option String := none
  buzzEnabled : Option Bool := none
  songAttempts : List (String × List String) := []
  currentTurn : Option CurrentTurn := none
  countdown : Option CountdownData := none
  currentTeamTurn : Option String := none
deriving Repr, DecidableEq

/-- JS object spread update `{...m, [k]: v}`: replace the value at an
existing key in place, otherwise append at the end. -/
def setKey {β : Type} (k : String) (v : β) : List (String × β) → List (String × β)
  | [] => [(k, v)]
  | (a, b) :: t => if a == k then (k, v) :: t else (a, b) :: setKey k v t

/-- JS `delete m[k]`: drop the entry at key `k`. -/
def delKey {β : Type} (k : String) (l : List (String × β)) : List (String × β) :=
  l.filter (fun q => q.1 != k)

/-! ## Predefined game modes (RoomContext.tsx lines 218-279) -/

def classicMode : GameMode :=
  { type := .classic
  , name := "Classica"
  , description := "Modalita tradizionale senza limiti di tempo"
  , settings := { pointsCorrect := some 10, pointsWrong := some 5 } }

def easyMode : GameMode :=
  { type := .easy
  , name := "Facile"
  , description := "Rispondi dopo aver ascoltato; il buzz si attiva dopo 10 secondi"
  , settings := { pointsCorrect := some 10, pointsWrong := some 5
                , buzzDelaySeconds := some 10 } }

def expertMode : GameMode :=
  { type := .expert
  , name := "Esperto"
  , description := "Un solo tentativo per brano"
  , settings := { pointsCorrect := some 10, pointsWrong := some 5
                , oneAttemptPerSong := some true } }

def speedMode : GameMode :=
  { type := .speed
  , name := "Velocita"
  , description := "Rispondi entro il tempo limite"
  , settings := { timeLimit := some 20, pointsCorrect := some 15
                , pointsWrong := some 5 } }

def turnBasedMode : GameMode :=
  { type := .turnBased
  , name := "A Turni"
  , description := "Ogni giocatore ha 10 secondi di vantaggio nel suo turno"
  , settings := { turnBasedEnabled := some true, turnAdvantageSeconds := some 10
                , pointsCorrect := some 10, pointsWrong := some 5 } }

def teamsMode : GameMode :=
  { type := .teams
  , name := "Squadre"
  , description := "Gioca in team contro team"
  , settings := { teamsEnabled := some true, pointsCorrect := some 12
                , pointsWrong := some 4 } }

/-- The `gameModes` array of the provider. -/
def gameModesList : List GameMode :=
  [classicMode, easyMode, expertMode, speedMode, turnBasedMode, teamsMode]

/-! ## The buzz gate (`handleBuzz`, RoomContext.tsx lines 427-509) -/

/-- Outcome of a `handleBuzz` call: one constructor per early-return site
of the source function, plus `won` for the accepting path. -/
inductive BuzzResult
  | noRoom
  | buzzDisabled
  | alreadyWon
  | notYourTurn
  | alreadyAttempted
  | won
deriving Repr, DecidableEq

/-- The turn-based denial condition of `handleBuzz` (lines 446-458):
mode is `turnBased` with `turnBasedEnabled` truthy, a `currentTurn` exists
in its advantage phase, and the caller is not the current player. -/
def turnBlocked (mode : Option GameMode) (room : RoomData) (pid : String) : Bool :=
  match mode with
  | none => false
  | some m =>
    match m.type with
    | .turnBased =>
      if jsTruthy m.settings.turnBasedEnabled then
        match room.currentTurn with
        | some ct => ct.advantagePhase && ct.playerId != pid
        | none => false
      else false
    | _ => false

/-- The expert-mode guard precondition of `handleBuzz` (line 461):
mode is `expert`, `oneAttemptPerSong` truthy, and `currentSong` truthy. -/
def expertActive (mode : Option GameMode) (room : RoomData) : Bool :=
  match mode with
  | none => false
  | some m =>
    match m.type with
    | .expert => jsTruthy m.settings.oneAttemptPerSong && jsTruthyStr room.currentSong
    | _ => false

/-- The expert-mode denial condition (lines 463-469): the caller already
appears in the current song's attempt list. -/
def expertBlocked (mode : Option GameMode) (room : RoomData) (pid : String) : Bool :=
  expertActive mode room &&
    ((List.lookup (room.currentSong.getD "") room.songAttempts).getD []).contains pid

/-- The expert-mode attempt-recording update (lines 471-480): append the
caller to the current song's attempt list unless already present. -/
def expertRecordAttempt (att : List (String × List String)) (song pid : String) :
    List (String × List String) :=
  let attempted := (List.lookup song att).getD []
  if attempted.contains pid then att
  else setKey song (attempted ++ [pid]) att

/-- `handleBuzz` (RoomContext.tsx lines 427-509) as a sequential state
transformer over the room record: the early-return chain in source order
(missing ids, `buzzEnabled`, existing `winnerInfo`, turn gate, expert
gate), then the expert attempt-recording write, then the winner write
that sets `winnerInfo` and `buzzEnabled := false` in one update. -/
def handleBuzz (room : RoomData) (mode : Option GameMode) (pid pname : String) (now : Nat) :
    BuzzResult × RoomData :=
  if pid == "" || pname == "" then (.noRoom, room)
  else if !jsTruthy room.buzzEnabled then (.buzzDisabled, room)
  else if room.winnerInfo.isSome then (.alreadyWon, room)
  else if turnBlocked mode room pid then (.notYourTurn, room)
  else if expertBlocked mode room pid then (.alreadyAttempted, room)
  else
    let room1 :=
      if expertActive mode room then
        { room with songAttempts :=
            expertRecordAttempt room.songAttempts (room.currentSong.getD "") pid }
      else room
    (.won, { room1 with
              winnerInfo := some { playerId := pid, playerName := pname, timestamp := now }
            , buzzEnabled := some false })

/-- The unconditional winner update that `handleBuzz` sends to the store
(lines 487-494): it sets `winnerInfo` and `buzzEnabled := false` with no
store-side precondition — the store applies it whatever the current
contents of `winnerInfo` are. -/
def buzzWinnerWrite (store : RoomData) (pid pname : String) (now : Nat) : RoomData :=
  { store with
      winnerInfo := some { playerId := pid, playerName := pname, timestamp := now }
    , buzzEnabled := some false }

/-! ## Scoring (`awardCorrectAnswer` / `awardWrongAnswer` /
`awardSuperAnswer`, RoomContext.tsx lines 538-648) -/

/-- Effective points for a correct answer:
`currentGameMode?.settings?.pointsCorrect || 10` (line 550). -/
def effPointsCorrect (mode : Option GameMode) : Int :=
  jsOrInt (mode.bind (fun m => m.settings.pointsCorrect)) 10

/-- Effective penalty for a wrong answer:
`currentGameMode?.settings?.pointsWrong || 5` (line 588). -/
def effPointsWrong (mode : Option GameMode) : Int :=
  jsOrInt (mode.bind (fun m => m.settings.pointsWrong)) 5

/-- The player-record update written by `awardCorrectAnswer`
(lines 549-561). -/
def awardCorrectUpdate (mode : Option GameMode) (p : Player) (now : Nat) : Player :=
  let basePoints := effPointsCorrect mode
  let currentScore := jsOrInt p.points 0
  let newStreak := jsOrInt p.currentStreak 0 + 1
  { p with points := some (currentScore + basePoints)
         , currentStreak := some newStreak
         , bestStreak := some (max newStreak (jsOrInt p.bestStreak 0))
         , correctAnswers := some (jsOrInt p.correctAnswers 0 + 1)
         , lastAnswerTime := some now }

/-- The player-record update written by `awardWrongAnswer`
(lines 587-597). -/
def awardWrongUpdate (mode : Option GameMode) (p : Player) (now : Nat) : Player :=
  let penaltyPoints := effPointsWrong mode
  let currentScore := jsOrInt p.points 0
  { p with points := some (max 0 (currentScore - penaltyPoints))
         , currentStreak := some 0
         , wrongAnswers := some (jsOrInt p.wrongAnswers 0 + 1)
         , lastAnswerTime := some now }

/-- The player-record update written by `awardSuperAnswer`
(lines 623-635): a fixed 20-point bonus, streak handled as for Correct. -/
def awardSuperUpdate (p : Player) (now : Nat) : Player :=
  let newStreak := jsOrInt p.currentStreak 0 + 1
  { p with points := some (jsOrInt p.points 0 + 20)
         , currentStreak := some newStreak
         , bestStreak := some (max newStreak (jsOrInt p.bestStreak 0))
         , correctAnswers := some (jsOrInt p.correctAnswers 0 + 1)
         , lastAnswerTime := some now }

/-! ## Countdown (`startCountdown`, RoomContext.tsx lines 1017-1068) -/

/-- One write to the countdown node of the store, with its time offset in
tick units from the start of the run. -/
structure CdWrite where
  active : Bool
  value : Nat
  timeOffset : Nat
deriving Repr, DecidableEq

/-- The writes of the `for (let i = 3; i > 0; i--)` loop (lines 1039-1048):
write `{isActive:true, value:i}` then sleep one tick. -/
def countdownLoopWrites : List CdWrite :=
  (List.range 3).map (fun k => { active := true, value := 3 - k, timeOffset := k })

/-- The full write sequence of `startCountdown`: the initial write
`{isActive:true, value:3}` (line 1036), the loop writes, and the terminal
write `{isActive:false, value:0}` (lines 1052-1055). -/
def startCountdownWrites : List CdWrite :=
  ({ active := true, value := 3, timeOffset := 0 } : CdWrite) ::
    countdownLoopWrites ++ [{ active := false, value := 0, timeOffset := 3 }]

/-- Whether a list of naturals strictly decreases by exactly 1 at each
step. -/
def strictlyDescBy1 : List Nat → Bool
  | [] => true
  | [_] => true
  | a :: b :: t => (a == b + 1) && strictlyDescBy1 (b :: t)

/-- Collapse consecutive duplicates in a list. -/
def dedupConsec {α : Type} [DecidableEq α] : List α → List α
  | [] => []
  | [a] => [a]
  | a :: b :: t => if a = b then dedupConsec (b :: t) else a :: dedupConsec (b :: t)

/-- Actions performed by `startCountdown`, including the browser events it
dispatches: `disableBuzzForSong` before any countdown write (line 1027)
and `enableBuzzForSong` after the terminal write (line 1058). -/
inductive CdAction
  | dispatchDisableBuzz
  | writeCountdown (active : Bool) (value : Nat)
  | dispatchEnableBuzz
deriving Repr, DecidableEq

/-- The action sequence of a successful `startCountdown` run. -/
def startCountdownActions : List CdAction :=
  CdAction.dispatchDisableBuzz ::
    startCountdownWrites.map (fun w => CdAction.writeCountdown w.active w.value)
    ++ [CdAction.dispatchEnableBuzz]

/-! ## Turn rotation -/

/-- Non-host players in stable join order
(`playersList.filter(p => !p.isHost)`, part_003 lines 253-255). -/
def nonHostPlayers (players : List (String × Player)) : List (String × Player) :=
  players.filter (fun q => !q.2.isHost)

/-- The `currentTurn` value written by `setGameMode` when activating
turn-based mode (RoomContext.tsx lines 760-776): the order is built from
`Object.keys(roomData.players)` — ALL players, the host included — and
the first player overall becomes the current player. -/
def setGameModeTurnOrder (players : List (String × Player)) : List (String × String) :=
  players.map (fun q => (q.1, jsOrStr (some q.2.name) "Unknown"))

def setGameModeTurnInit (players : List (String × Player)) (now : Nat) : CurrentTurn :=
  { playerId := (players.map Prod.fst).headD ""
  , playerName := jsOrStr ((players.head?).map (fun q => q.2.name)) "Unknown"
  , turnNumber := 1
  , startTime := now
  , advantagePhase := true
  , turnOrder := some (setGameModeTurnOrder players)
  , nextPlayerIndex := some 1 }

/-- Hard-coded advantage-window length in milliseconds: the
`setTimeout(..., 15000)` in `executePlayAudio` (part_003 line 283) that
flips `advantagePhase` to false. -/
def advantagePhaseFlipDelayMs : Nat := 15000

/-- `advantagePhase` as maintained by `executePlayAudio`: set true at the
turn start and flipped false by the scheduled callback
`advantagePhaseFlipDelayMs` milliseconds later. -/
def advantagePhaseAt (startTimeMs nowMs : Nat) : Bool :=
  nowMs < startTimeMs + advantagePhaseFlipDelayMs

/-- The stored turn state as seen at `nowMs`, after the scheduled
advantage flip has or has not fired. -/
def turnStateAt (ct : CurrentTurn) (nowMs : Nat) : CurrentTurn :=
  { ct with advantagePhase := advantagePhaseAt ct.startTime nowMs }

/-- The per-item turn assignment of `executePlayAudio` (part_003 lines
253-270): select `nonHostPlayers[(turnNumber || 0) % count]` and write it
as the new current turn with `turnNumber` one past the selected index and
`advantagePhase := true`. Returns `none` when there is no non-host player
(the source skips the update in that case). -/
def executePlayAudioTurn (players : List (String × Player)) (prevTurnNumber : Option Nat)
    (now : Nat) : Option CurrentTurn :=
  let nh := nonHostPlayers players
  if h : 0 < nh.length then
    let t := jsOrNat prevTurnNumber 0 % nh.length
    let cp := nh.get ⟨t, Nat.mod_lt _ h⟩
    some { playerId := cp.1, playerName := cp.2.name, turnNumber := t + 1
         , startTime := now, advantagePhase := true }
  else none

/-- One advance step: feed the previous turn's number into the next
`executePlayAudioTurn` assignment, as happens when the next item starts. -/
def advanceTurnStep (players : List (String × Player)) (ct : Option CurrentTurn)
    (now : Nat) : Option CurrentTurn :=
  executePlayAudioTurn players (ct.map CurrentTurn.turnNumber) now

/-! ## Host-gated operations -/

/-- Whether the current mode is the expert mode
(`currentGameMode?.type === 'expert'`). -/
def isExpertType (mode : Option GameMode) : Bool :=
  match mode with
  | some m => match m.type with | .expert => true | _ => false
  | none => false

/-- `isHost` (RoomContext.tsx lines 200-202): the caller id is truthy and
its player record is marked `isHost`. -/
def isHostOf (pid : String) (room : RoomData) : Bool :=
  pid != "" && ((List.lookup pid room.players).map Player.isHost).getD false

/-- Point update applied to one player of the room, leaving all others. -/
def updatePlayerIn (room : RoomData) (pid : String) (f : Player → Player) : RoomData :=
  { room with players := room.players.map (fun q => if q.1 == pid then (q.1, f q.2) else q) }

/-- Modelled from the spec: `resetBuzz` lives in `src/services/firebase`,
which is not among the provided sources. Per the spec (§4.5: signaling is
re-armed only when the host explicitly resets; §3: the WinnerRecord is
cleared by an explicit adjudication or reset), the explicit reset clears
the round's WinnerRecord and re-arms `signalEnabled`, and does not touch
`attemptsPerItem`. -/
def resetBuzzM (room : RoomData) : RoomData :=
  { room with winnerInfo := none, buzzEnabled := some true }

/-- Modelled from the spec: `rejectPlayerAnswer` lives in
`src/services/firebase`, not among the provided sources. Per the spec
(§4.5 Rejected), it clears the WinnerRecord without altering points. -/
def rejectPlayerAnswerM (room : RoomData) : RoomData :=
  { room with winnerInfo := none }

/-- Modelled from the spec: `assignPoints` lives in
`src/services/firebase`, not among the provided sources. Per the spec
(§4.5), the legacy award adds the given amount to the player's points. -/
def assignPointsM (room : RoomData) (pid : String) (amount : Int) : RoomData :=
  updatePlayerIn room pid (fun p => { p with points := some (jsOrInt p.points 0 + amount) })

/-- Modelled from the spec: `subtractPoints` lives in
`src/services/firebase`, not among the provided sources. Per the spec
(§4.5, invariant: points never negative), it subtracts clamping at 0. -/
def subtractPointsM (room : RoomData) (pid : String) (amount : Int) : RoomData :=
  updatePlayerIn room pid (fun p => { p with points := some (max 0 (jsOrInt p.points 0 - amount)) })

/-- `setGameMode` (RoomContext.tsx lines 745-787): host-gated; stores the
mode; for teams sets the team turn; for turn-based initializes the
rotation from ALL current players. -/
def setGameModeFn (pid : String) (room : RoomData) (mode : GameMode) (now : Nat) : RoomData :=
  if pid == "" then room
  else if !isHostOf pid room then room
  else
    let room1 := { room with gameMode := some mode }
    match mode.type with
    | .teams => { room1 with currentTeamTurn := some "A" }
    | .turnBased => { room1 with currentTurn := some (setGameModeTurnInit room.players now) }
    | _ => room1

/-- `enableBuzz` (lines 958-971): host-gated; sets `buzzEnabled := true`. -/
def enableBuzzFn (pid : String) (room : RoomData) : RoomData :=
  if !isHostOf pid room then room
  else { room with buzzEnabled := some true }

/-- `disableBuzz` (lines 973-986): host-gated; sets `buzzEnabled := false`. -/
def disableBuzzFn (pid : String) (room : RoomData) : RoomData :=
  if !isHostOf pid room then room
  else { room with buzzEnabled := some false }

/-- The action sequence `startCountdown` performs for a given caller
(lines 1017-1021: it returns without any write unless the caller is
host). -/
def startCountdownFnActions (pid : String) (room : RoomData) : List CdAction :=
  if !isHostOf pid room then [] else startCountdownActions

/-- `stopCountdown` (lines 1071-1088): host-gated; forces the terminal
countdown state. -/
def stopCountdownFn (pid : String) (room : RoomData) : RoomData :=
  if !isHostOf pid room then room
  else { room with countdown := some { isActive := false, value := 0, startTime := none } }

/-- `handleResetBuzz` (lines 511-535): host-gated; resets the buzz, and in
expert mode with a truthy current song deletes that song's attempt entry. -/
def handleResetBuzzFn (pid : String) (room : RoomData) (mode : Option GameMode) : RoomData :=
  if !isHostOf pid room then room
  else
    let room1 := resetBuzzM room
    if isExpertType mode && jsTruthyStr room.currentSong then
      { room1 with songAttempts := delKey (room.currentSong.getD "") room1.songAttempts }
    else room1

/-- `awardCorrectAnswer` (lines 538-574): host-gated, requires a winner
whose player record exists; writes the score update, clears the winner,
and disables the buzz. -/
def awardCorrectAnswerFn (pid : String) (room : RoomData) (mode : Option GameMode)
    (now : Nat) : RoomData :=
  if !isHostOf pid room then room
  else
    match room.winnerInfo with
    | none => room
    | some w =>
      match List.lookup w.playerId room.players with
      | none => room
      | some p =>
        let room1 := updatePlayerIn room w.playerId (fun _ => awardCorrectUpdate mode p now)
        { rejectPlayerAnswerM room1 with buzzEnabled := some false }

/-- `awardWrongAnswer` (lines 576-610). -/
def awardWrongAnswerFn (pid : String) (room : RoomData) (mode : Option GameMode)
    (now : Nat) : RoomData :=
  if !isHostOf pid room then room
  else
    match room.winnerInfo with
    | none => room
    | some w =>
      match List.lookup w.playerId room.players with
      | none => room
      | some p =>
        let room1 := updatePlayerIn room w.playerId (fun _ => awardWrongUpdate mode p now)
        { rejectPlayerAnswerM room1 with buzzEnabled := some false }

/-- `awardSuperAnswer` (lines 612-648). -/
def awardSuperAnswerFn (pid : String) (room : RoomData) (now : Nat) : RoomData :=
  if !isHostOf pid room then room
  else
    match room.winnerInfo with
    | none => room
    | some w =>
      match List.lookup w.playerId room.players with
      | none => room
      | some p =>
        let room1 := updatePlayerIn room w.playerId (fun _ => awardSuperUpdate p now)
        { rejectPlayerAnswerM room1 with buzzEnabled := some false }

/-- `awardPoints` (lines 650-669): host-gated, requires a winner; legacy
point assignment then disables the buzz. -/
def awardPointsFn (pid : String) (room : RoomData) (amount : Int) : RoomData :=
  if !isHostOf pid room then room
  else
    match room.winnerInfo with
    | none => room
    | some w => { assignPointsM room w.playerId amount with buzzEnabled := some false }

/-- `subtractPlayerPoints` (lines 671-687). -/
def subtractPlayerPointsFn (pid : String) (room : RoomData) (amount : Int) : RoomData :=
  if !isHostOf pid room then room
  else
    match room.winnerInfo with
    | none => room
    | some w => { subtractPointsM room w.playerId amount with buzzEnabled := some false }

/-- `rejectAnswer` (lines 689-702): host-gated, requires a winner; clears
it and disables the buzz. -/
def rejectAnswerFn (pid : String) (room : RoomData) : RoomData :=
  if !isHostOf pid room then room
  else
    match room.winnerInfo with
    | none => room
    | some _ => { rejectPlayerAnswerM room with buzzEnabled := some false }

/-! ## Step trace of `handleBuzz`

The internal order of checks and store writes of `handleBuzz`, in source
order: the `buzzEnabled` test (line 434), the `winnerInfo` test (line
440), the turn test (lines 446-458), the expert-attempt test (line 465),
the `songAttempts` store write (lines 478-480), and the winner store
write (lines 487-494). -/

inductive BuzzStep
  | checkEnabled
  | checkWinner
  | checkTurn
  | checkAttempted
  | writeAttempts
  | writeWinner
deriving Repr, DecidableEq

/-- The sequence of checks and writes a `handleBuzz` call performs,
following the early-return chain of the source. -/
def handleBuzzTrace (room : RoomData) (mode : Option GameMode) (pid pname : String) :
    List BuzzStep :=
  if pid == "" || pname == "" then []
  else if !jsTruthy room.buzzEnabled then [.checkEnabled]
  else if room.winnerInfo.isSome then [.checkEnabled, .checkWinner]
  else if turnBlocked mode room pid then [.checkEnabled, .checkWinner, .checkTurn]
  else if expertBlocked mode room pid then
    [.checkEnabled, .checkWinner, .checkTurn, .checkAttempted]
  else if expertActive mode room then
    [.checkEnabled, .checkWinner, .checkTurn, .checkAttempted, .writeAttempts, .writeWinner]
  else [.checkEnabled, .checkWinner, .checkTurn, .writeWinner]

/-! ## Association-list lemmas -/

theorem lookup_setKey_self {β : Type} (k : String) (v : β) (l : List (String × β)) :
    List.lookup k (setKey k v l) = some v := by
  induction l with
  | nil => simp [setKey, List.lookup]
  | cons q t ih =>
    rcases q with ⟨a, b⟩
    by_cases h : a = k
    · subst h
      simp [setKey, List.lookup]
    · have hb : (a == k) = false := by simp [h]
      have hb2 : (k == a) = false := by simp [Ne.symm h]
      simp [setKey, hb, List.lookup, hb2, ih]

theorem lookup_delKey_self {β : Type} (s : String) (l : List (String × β)) :
    List.lookup s (delKey s l) = none := by
  induction l with
  | nil => simp [delKey, List.lookup]
  | cons q t ih =>
    rcases q with ⟨a, b⟩
    by_cases h : a = s
    · subst h
      simpa [delKey, List.filter] using ih
    · have hb : (a != s) = true := by simp [bne, h]
      have hb2 : (s == a) = false := by simp [Ne.symm h]
      simpa [delKey, List.filter, hb, List.lookup, hb2] using ih

theorem lookup_delKey_ne {β : Type} (k s : String) (h : k ≠ s) (l : List (String × β)) :
    List.lookup k (delKey s l) = List.lookup k l := by
  induction l with
  | nil => simp [delKey]
  | cons q t ih =>
    rcases q with ⟨a, b⟩
    by_cases ha : a = s
    · subst ha
      have hb2 : (k == a) = false := by simp [h]
      simpa [delKey, List.filter, List.lookup, hb2] using ih
    · have hb : (a != s) = true := by simp [bne, ha]
      by_cases hk : k = a
      · subst hk
        simp [delKey, List.filter, hb, List.lookup]
      · have hk2 : (k == a) = false := by simp [hk]
        simpa [delKey, List.filter, hb, List.lookup, hk2] using ih

theorem contains_append_self (l : List String) (a : String) :
    (l ++ [a]).contains a = true := by
  simp

/-- The guarded expert insertion is idempotent. -/
theorem expertRecordAttempt_idem (att : List (String × List String)) (song pid : String) :
    expertRecordAttempt (expertRecordAttempt att song pid) song pid =
      expertRecordAttempt att song pid := by
  by_cases h : pid ∈ (List.lookup song att).getD []
  · simp [expertRecordAttempt, h]
  · have h1 : expertRecordAttempt att song pid
        = setKey song ((List.lookup song att).getD [] ++ [pid]) att := by
      simp [expertRecordAttempt, h]
    rw [h1]
    have h2 : List.lookup song (setKey song ((List.lookup song att).getD [] ++ [pid]) att)
        = some ((List.lookup song att).getD [] ++ [pid]) :=
      lookup_setKey_self song _ att
    simp [expertRecordAttempt, h2]

/-! ## Concrete fixtures -/

def mkPlayer (nm : String) (host : Bool) : Player := { name := nm, isHost := host }

/-- A room with a host and three non-host players, in join order. -/
def players4 : List (String × Player) :=
  [("H", mkPlayer "Hugo" true), ("A", mkPlayer "Anna" false),
   ("B", mkPlayer "Bice" false), ("C", mkPlayer "Carlo" false)]

/-- An open classic-mode round: buzz enabled, no winner. -/
def raceRoom : RoomData :=
  { hostName := "Hugo", players := players4, buzzEnabled := some true }

/-- An expert-mode round where "p1" already attempted the current song. -/
def expertRoomAttempted : RoomData :=
  { hostName := "Hugo"
  , players := [("host1", mkPlayer "Hugo" true), ("p1", mkPlayer "Al" false),
                ("p2", mkPlayer "Bo" false)]
  , buzzEnabled := some true
  , currentSong := some "s1"
  , songAttempts := [("s1", ["p1"]), ("s2", ["p9"])] }

/-- Same room with a different current song. -/
def expertRoomOtherSong : RoomData :=
  { expertRoomAttempted with currentSong := some "s2" }

/-- The turn assigned by `executePlayAudio` at the start of the first
item, with the turn clock starting at 0 ms (current player "A"). -/
def turnCt0 : Option CurrentTurn := executePlayAudioTurn players4 none 0

/-- The turn-based room as observed `nowMs` milliseconds into the turn,
with `advantagePhase` as maintained by the scheduled flip. -/
def turnRoomAt (nowMs : Nat) : RoomData :=
  { hostName := "Hugo", players := players4, buzzEnabled := some true
  , currentTurn := turnCt0.map (fun ct => turnStateAt ct nowMs) }

/-- A room whose buzz is disabled. -/
def disabledRoom : RoomData :=
  { hostName := "Hugo", players := players4, buzzEnabled := some false }

/-- A room whose countdown node is active while the buzz is enabled. -/
def countdownRoom : RoomData :=
  { hostName := "Hugo"
  , players := players4
  , buzzEnabled := some true
  , countdown := some { isActive := true, value := 2, startTime := some 0 } }

/-! ## Claim theorems -/

/-- C1: `handleBuzz` resolves the buzz race by testing the winner on the
caller's local snapshot and then sending an UNCONDITIONAL winner update
to the store. With two participants racing from the same winner-free
snapshot, both calls pass the gate (both report `won`), each performs its
winner write, and the second write overwrites the first even though a
winner is already present — so the write is a read-then-write pair, not
an atomic conditional update, and two winner records get recorded. -/
theorem C1_race_read_then_write_two_winners :
    (handleBuzz raceRoom none "p1" "Al" 5).1 = BuzzResult.won
  ∧ (handleBuzz raceRoom none "p2" "Bo" 6).1 = BuzzResult.won
  ∧ (handleBuzz raceRoom none "p1" "Al" 5).2 = buzzWinnerWrite raceRoom "p1" "Al" 5
  ∧ (buzzWinnerWrite raceRoom "p1" "Al" 5).winnerInfo
      = some { playerId := "p1", playerName := "Al", timestamp := 5 }
  ∧ (buzzWinnerWrite raceRoom "p1" "Al" 5).winnerInfo.isSome = true
  ∧ (buzzWinnerWrite (buzzWinnerWrite raceRoom "p1" "Al" 5) "p2" "Bo" 6).winnerInfo
      = some { playerId := "p2", playerName := "Bo", timestamp := 6 } := by
  decide

/-- C3: adjudicating Correct adds the mode's `pointsCorrect` (default 10),
bumps the streak, tracks the best streak and the correct count;
adjudicating Wrong clamps `max 0 (points - pointsWrong)` (default 5),
resets the streak and bumps the wrong count; the 0 → Correct → Wrong
scenario yields 10 points / streak 1 then 5 points / streak 0; points
stay nonnegative. -/
theorem C3_adjudication_scoring :
    (∀ (mode : Option GameMode) (p : Player) (now : Nat),
        (awardCorrectUpdate mode p now).points
            = some (jsOrInt p.points 0 + effPointsCorrect mode)
        ∧ (awardCorrectUpdate mode p now).currentStreak = some (jsOrInt p.currentStreak 0 + 1)
        ∧ (awardCorrectUpdate mode p now).bestStreak
            = some (max (jsOrInt p.currentStreak 0 + 1) (jsOrInt p.bestStreak 0))
        ∧ (awardCorrectUpdate mode p now).correctAnswers
            = some (jsOrInt p.correctAnswers 0 + 1)
        ∧ (awardWrongUpdate mode p now).points
            = some (max 0 (jsOrInt p.points 0 - effPointsWrong mode))
        ∧ (awardWrongUpdate mode p now).currentStreak = some 0
        ∧ (awardWrongUpdate mode p now).wrongAnswers = some (jsOrInt p.wrongAnswers 0 + 1))
  ∧ effPointsCorrect none = 10
  ∧ effPointsWrong none = 5
  ∧ ((awardCorrectUpdate (some classicMode) (mkPlayer "P" false) 1).points = some 10
      ∧ (awardCorrectUpdate (some classicMode) (mkPlayer "P" false) 1).currentStreak = some 1
      ∧ (awardWrongUpdate (some classicMode)
            (awardCorrectUpdate (some classicMode) (mkPlayer "P" false) 1) 2).points = some 5
      ∧ (awardWrongUpdate (some classicMode)
            (awardCorrectUpdate (some classicMode) (mkPlayer "P" false) 1) 2).currentStreak
          = some 0)
  ∧ (∀ (mode : Option GameMode) (p : Player) (now : Nat),
        0 ≤ jsOrInt p.points 0 → 0 ≤ effPointsCorrect mode →
          ∃ v, (awardCorrectUpdate mode p now).points = some v ∧ 0 ≤ v)
  ∧ (∀ (mode : Option GameMode) (p : Player) (now : Nat),
        ∃ v, (awardWrongUpdate mode p now).points = some v ∧ 0 ≤ v) := by
  refine ⟨?_, by decide, by decide, by decide, ?_, ?_⟩
  · intro mode p now
    exact ⟨rfl, rfl, rfl, rfl, rfl, rfl, rfl⟩
  · intro mode p now h1 h2
    exact ⟨_, rfl, add_nonneg h1 h2⟩
  · intro mode p now
    exact ⟨_, rfl, le_max_left 0 _⟩

theorem C3_adjudication_scoring_witness :
    (0 : Int) ≤ jsOrInt (mkPlayer "P" false).points 0
  ∧ (0 : Int) ≤ effPointsCorrect (some classicMode)
  ∧ (∃ v, (awardCorrectUpdate (some classicMode) (mkPlayer "P" false) 1).points = some v
          ∧ 0 ≤ v) :=
  ⟨by decide, by decide,
    C3_adjudication_scoring.2.2.2.2.1 (some classicMode) (mkPlayer "P" false) 1
      (by decide) (by decide)⟩

/-- C4 counterexample: the write sequence of the countdown run is NOT
`[3,2,1,0]` with actives `[true,true,true,false]` — the initial write and
the first loop iteration both write value 3, so the store receives five
writes `[3,3,2,1,0]`. -/
theorem C4_counterexample :
    ¬ (startCountdownWrites.map CdWrite.value = [3, 2, 1, 0]
       ∧ startCountdownWrites.map CdWrite.active = [true, true, true, false]) := by
  decide

/-- C4 (amended): the countdown run writes values `[3,3,2,1,0]` with
actives `[true,true,true,true,false]`; collapsing the duplicated initial
value gives exactly `[3,2,1,0]` with actives `[true,true,true,false]`;
the loop ticks are spaced one time unit apart, the value decreases by 1
per write from the second write on, and the run ends with the terminal
write `{active:false, value:0}`. -/
theorem C4_countdown_write_sequence :
    startCountdownWrites.map CdWrite.value = [3, 3, 2, 1, 0]
  ∧ startCountdownWrites.map CdWrite.active = [true, true, true, true, false]
  ∧ dedupConsec (startCountdownWrites.map (fun w => (w.active, w.value)))
      = [(true, 3), (true, 2), (true, 1), (false, 0)]
  ∧ (countdownLoopWrites ++
        [({ active := false, value := 0, timeOffset := 3 } : CdWrite)]).map
        (fun w => (w.value, w.timeOffset)) = [(3, 0), (2, 1), (1, 2), (0, 3)]
  ∧ startCountdownWrites.getLast?
      = some { active := false, value := 0, timeOffset := 3 }
  ∧ strictlyDescBy1 ((startCountdownWrites.map CdWrite.value).tail) = true
  ∧ strictlyDescBy1 (dedupConsec (startCountdownWrites.map CdWrite.value)) = true := by
  decide

/-- C5: the turn gate itself is as claimed (during the advantage phase
only the current player may buzz; afterwards anyone may), but the
advantage phase does NOT end `turnAdvantageSeconds = 10` seconds after
the turn start: `executePlayAudio` flips `advantagePhase` with a
hard-coded 15000 ms timeout, so at 12 s — past the settings' 10 s — a
non-current player is still denied. -/
theorem C5_advantage_window_is_fifteen_seconds :
    turnBasedMode.settings.turnAdvantageSeconds = some 10
  ∧ advantagePhaseFlipDelayMs = 15000
  ∧ advantagePhaseFlipDelayMs ≠ 10 * 1000
  ∧ advantagePhaseAt 0 12000 = true
  ∧ (handleBuzz (turnRoomAt 12000) (some turnBasedMode) "B" "Bice" 12000).1
      = BuzzResult.notYourTurn
  ∧ (handleBuzz (turnRoomAt 12000) (some turnBasedMode) "B" "Bice" 12000).2
      = turnRoomAt 12000
  ∧ (handleBuzz (turnRoomAt 12000) (some turnBasedMode) "A" "Anna" 12000).1
      = BuzzResult.won
  ∧ advantagePhaseAt 0 16000 = false
  ∧ (handleBuzz (turnRoomAt 16000) (some turnBasedMode) "B" "Bice" 16000).1
      = BuzzResult.won := by
  decide

/-- C6 counterexample: activating turn-based mode does NOT restrict the
rotation to the non-host players — with host H and players A, B, C the
initialized order is `[H,A,B,C]` (the host included) and the current
player is H, not A. -/
theorem C6_counterexample :
    ¬ (((setGameModeTurnInit players4 0).turnOrder.getD []).map Prod.fst
          = (nonHostPlayers players4).map Prod.fst
       ∧ (setGameModeTurnInit players4 0).playerId
          = ((nonHostPlayers players4).map Prod.fst).headD "") := by
  decide

/-- C6 (amended): `setGameMode(turnBased)` builds the order from ALL
current players (host included) in stable join order with the first
player overall as current player; the per-item assignment in
`executePlayAudio` instead cycles through the non-host players by
`turnNumber mod count`, so with non-host players `[A,B,C]` successive
item starts select A, B, C and the fourth returns to A (three advances
cycle back). -/
theorem C6_turn_rotation :
    (∀ (players : List (String × Player)) (now : Nat),
        ((setGameModeTurnInit players now).turnOrder.getD []).map Prod.fst
          = players.map Prod.fst)
  ∧ (setGameModeTurnInit players4 0).playerId = "H"
  ∧ ((setGameModeTurnInit players4 0).turnOrder.getD []).map Prod.fst = ["H", "A", "B", "C"]
  ∧ (advanceTurnStep players4 none 0).map CurrentTurn.playerId = some "A"
  ∧ (advanceTurnStep players4 (advanceTurnStep players4 none 0) 1).map
        CurrentTurn.playerId = some "B"
  ∧ (advanceTurnStep players4
        (advanceTurnStep players4 (advanceTurnStep players4 none 0) 1) 2).map
        CurrentTurn.playerId = some "C"
  ∧ (advanceTurnStep players4 (advanceTurnStep players4
        (advanceTurnStep players4 (advanceTurnStep players4 none 0) 1) 2) 3).map
        CurrentTurn.playerId = some "A" := by
  refine ⟨?_, by decide, by decide, by decide, by decide, by decide, by decide⟩
  intro players now
  simp [setGameModeTurnInit, setGameModeTurnOrder, List.map_map, Function.comp]

/-- Full characterization of the sequential `handleBuzz` gate: acceptance
iff the base gate AND the mode gates pass; on acceptance the winner record
and `buzzEnabled := false` land in the same update; on rejection the room
is unchanged. -/
def BuzzGateSpec (room : RoomData) (mode : Option GameMode) (pid pname : String)
    (now : Nat) : Prop :=
  ((handleBuzz room mode pid pname now).1 = BuzzResult.won ↔
      (jsTruthy room.buzzEnabled = true ∧ room.winnerInfo = none
       ∧ turnBlocked mode room pid = false ∧ expertBlocked mode room pid = false))
  ∧ ((handleBuzz room mode pid pname now).1 = BuzzResult.won →
      ((handleBuzz room mode pid pname now).2.winnerInfo
          = some { playerId := pid, playerName := pname, timestamp := now }
       ∧ (handleBuzz room mode pid pname now).2.buzzEnabled = some false))
  ∧ ((handleBuzz room mode pid pname now).1 ≠ BuzzResult.won →
      (handleBuzz room mode pid pname now).2 = room)

/-- C2 counterexample: acceptance is NOT equivalent to
"`buzzEnabled` and no winner": in expert mode a participant who already
attempted the current song is rejected although the buzz is enabled and
no winner exists (the rejection does leave the room unchanged). -/
theorem C2_counterexample :
    jsTruthy expertRoomAttempted.buzzEnabled = true
  ∧ expertRoomAttempted.winnerInfo = none
  ∧ (handleBuzz expertRoomAttempted (some expertMode) "p1" "Al" 3).1 ≠ BuzzResult.won
  ∧ (handleBuzz expertRoomAttempted (some expertMode) "p1" "Al" 3).2
      = expertRoomAttempted := by
  decide

/-- C2 (amended): a `handleBuzz` call with nonempty ids is accepted iff
`buzzEnabled` is truthy, no winner record exists, AND the turn-based and
expert mode gates pass; on acceptance it records the winner
`{participantId, participantName, timestamp}` and sets `buzzEnabled`
to false in the same update; on rejection the room state is unchanged. -/
theorem C2_signal_gate : ∀ (room : RoomData) (mode : Option GameMode) (pid pname : String)
    (now : Nat), pid ≠ "" → pname ≠ "" → BuzzGateSpec room mode pid pname now := by
  intro room mode pid pname now hpid hpname
  have h0 : (pid == "" || pname == "") = false := by
    simp [hpid, hpname]
  unfold BuzzGateSpec handleBuzz
  rw [h0]
  by_cases hb : jsTruthy room.buzzEnabled
  · by_cases hw : room.winnerInfo.isSome
    · have hw' : room.winnerInfo ≠ none := by simpa [Option.isSome_iff_ne_none] using hw
      simp [hb, hw, hw']
    · have hw' : room.winnerInfo = none := by
        simpa [Option.isSome_iff_ne_none] using hw
      by_cases ht : turnBlocked mode room pid
      · simp [hb, hw, hw', ht]
      · by_cases he : expertBlocked mode room pid
        · simp [hb, hw, hw', ht, he]
        · by_cases hea : expertActive mode room
          · simp [hb, hw, hw', ht, he, hea]
          · simp [hb, hw, hw', ht, he, hea]
  · simp [hb]

/-- C2 witness: the amended gate characterization applied at a concrete
open classic-mode round. -/
theorem C2_signal_gate_witness : BuzzGateSpec raceRoom none "p1" "Al" 5 :=
  C2_signal_gate raceRoom none "p1" "Al" 5 (by decide) (by decide)

/-- Behaviour of the expert-mode attempt gate inside `handleBuzz`: a
participant already recorded for the current item is rejected without
mutation; otherwise the call wins and the participant lands in the
current item's attempt list. -/
def ExpertGateSpec (room : RoomData) (mode : Option GameMode) (pid pname : String)
    (now : Nat) : Prop :=
  (((List.lookup (room.currentSong.getD "") room.songAttempts).getD []).contains pid = true →
      (handleBuzz room mode pid pname now).1 = BuzzResult.alreadyAttempted
      ∧ (handleBuzz room mode pid pname now).2 = room)
  ∧ (((List.lookup (room.currentSong.getD "") room.songAttempts).getD []).contains pid = false →
      (handleBuzz room mode pid pname now).1 = BuzzResult.won
      ∧ List.lookup (room.currentSong.getD "")
            (handleBuzz room mode pid pname now).2.songAttempts
          = some (((List.lookup (room.currentSong.getD "") room.songAttempts).getD [])
              ++ [pid]))

/-- C7 counterexample: in the step trace of an accepted expert-mode
attempt, the `songAttempts` insertion does NOT happen prior to the
winner check — there are no positions with the insertion before the
winner-absence test (the test at index 1 precedes the insertion at
index 4). -/
theorem C7_counterexample :
    ¬ ∃ i j : Fin (handleBuzzTrace expertRoomOtherSong (some expertMode) "p1" "Al").length,
        (handleBuzzTrace expertRoomOtherSong (some expertMode) "p1" "Al").get i
            = BuzzStep.writeAttempts
        ∧ (handleBuzzTrace expertRoomOtherSong (some expertMode) "p1" "Al").get j
            = BuzzStep.checkWinner
        ∧ i.val < j.val := by
  decide

/-- C7 (amended): under expert mode with `oneAttemptPerSong` and a truthy
current item, a participant already in `attemptsPerItem[currentItemId]`
is denied for that item (without mutation) and allowed for a different
item; the insertion happens within the same `handleBuzz` call AFTER the
winner-absence check and BEFORE the winner write; the guarded insertion
is idempotent. -/
theorem C7_expert_attempt_tracking :
    (∀ (room : RoomData) (mode : Option GameMode) (pid pname : String) (now : Nat),
        pid ≠ "" → pname ≠ "" →
        jsTruthy room.buzzEnabled = true → room.winnerInfo = none →
        turnBlocked mode room pid = false → expertActive mode room = true →
        ExpertGateSpec room mode pid pname now)
  ∧ (∀ (att : List (String × List String)) (song q : String),
        expertRecordAttempt (expertRecordAttempt att song q) song q
          = expertRecordAttempt att song q)
  ∧ (handleBuzz expertRoomAttempted (some expertMode) "p1" "Al" 3).1
      = BuzzResult.alreadyAttempted
  ∧ (handleBuzz expertRoomOtherSong (some expertMode) "p1" "Al" 3).1 = BuzzResult.won
  ∧ handleBuzzTrace expertRoomOtherSong (some expertMode) "p1" "Al"
      = [.checkEnabled, .checkWinner, .checkTurn, .checkAttempted,
         .writeAttempts, .writeWinner] := by
  refine ⟨?_, expertRecordAttempt_idem, by decide, by decide, by decide⟩
  intro room mode pid pname now hpid hpname hen hwin hturn hexp
  have h0 : (pid == "" || pname == "") = false := by simp [hpid, hpname]
  have hw : room.winnerInfo.isSome = false := by simp [hwin]
  unfold ExpertGateSpec handleBuzz
  rw [h0]
  constructor
  · intro hc
    have hc2 : pid ∈ (List.lookup (room.currentSong.getD "") room.songAttempts).getD [] := by
      simpa using hc
    have he : expertBlocked mode room pid = true := by
      simp [expertBlocked, hexp, hc2]
    simp [hen, hw, hturn, he]
  · intro hc
    have hc2 : pid ∉ (List.lookup (room.currentSong.getD "") room.songAttempts).getD [] := by
      simpa using hc
    have he : expertBlocked mode room pid = false := by
      simp [expertBlocked, hexp, hc2]
    have hrec : expertRecordAttempt room.songAttempts (room.currentSong.getD "") pid
        = setKey (room.currentSong.getD "")
            (((List.lookup (room.currentSong.getD "") room.songAttempts).getD []) ++ [pid])
            room.songAttempts := by
      simp [expertRecordAttempt, hc2]
    simp [hen, hw, hturn, he, hexp, hrec, lookup_setKey_self]

/-- C7 witness: the expert gate behaviour applied at a concrete expert
round in which "p1" already attempted the current song. -/
theorem C7_expert_attempt_tracking_witness :
    ExpertGateSpec expertRoomAttempted (some expertMode) "p1" "Al" 3 :=
  C7_expert_attempt_tracking.1 expertRoomAttempted (some expertMode) "p1" "Al" 3
    (by decide) (by decide) (by decide) (by decide) (by decide) (by decide)

/-- C8 counterexample: `handleBuzz` never consults the countdown node: in
a room whose countdown is active but whose `buzzEnabled` flag is still
true, a signal attempt is accepted — countdown does not take precedence
over the gate. -/
theorem C8_counterexample :
    (countdownRoom.countdown.map CountdownData.isActive).getD false = true
  ∧ (handleBuzz countdownRoom (some classicMode) "A" "Anna" 7).1 = BuzzResult.won := by
  decide

/-- C8 (amended): signaling during a countdown is blocked only indirectly
through `buzzEnabled`: any call with `buzzEnabled` falsy is rejected
without mutation, and `startCountdown` dispatches the buzz-disabling
event before its first countdown write and the re-enabling event after
the terminal write — but the gate itself never reads the countdown
state. -/
theorem C8_countdown_gating :
    (∀ (room : RoomData) (mode : Option GameMode) (pid pname : String) (now : Nat),
        jsTruthy room.buzzEnabled = false →
          (handleBuzz room mode pid pname now).1 ≠ BuzzResult.won
          ∧ (handleBuzz room mode pid pname now).2 = room)
  ∧ startCountdownActions.head? = some CdAction.dispatchDisableBuzz
  ∧ startCountdownActions.getLast? = some CdAction.dispatchEnableBuzz
  ∧ startCountdownActions
      = [.dispatchDisableBuzz, .writeCountdown true 3, .writeCountdown true 3,
         .writeCountdown true 2, .writeCountdown true 1, .writeCountdown false 0,
         .dispatchEnableBuzz] := by
  refine ⟨?_, by decide, by decide, by decide⟩
  intro room mode pid pname now hb
  by_cases h0 : (pid == "" || pname == "") = true
  · simp [handleBuzz, h0]
  · simp only [Bool.not_eq_true] at h0
    simp [handleBuzz, h0, hb]

/-- C8 witness: the disabled-buzz rejection applied at a concrete room
with the buzz disabled. -/
theorem C8_countdown_gating_witness :
    (handleBuzz disabledRoom (some classicMode) "A" "Anna" 7).1 ≠ BuzzResult.won
  ∧ (handleBuzz disabledRoom (some classicMode) "A" "Anna" 7).2 = disabledRoom :=
  C8_countdown_gating.1 disabledRoom (some classicMode) "A" "Anna" 7 (by decide)

/-- All host-authority mutations leave the room untouched (and the
countdown run performs no action) for a non-host caller. -/
def HostGuardSpec (pid : String) (room : RoomData) (mode : Option GameMode) (gm : GameMode)
    (now : Nat) (amount : Int) : Prop :=
  setGameModeFn pid room gm now = room
  ∧ enableBuzzFn pid room = room
  ∧ disableBuzzFn pid room = room
  ∧ startCountdownFnActions pid room = []
  ∧ stopCountdownFn pid room = room
  ∧ handleResetBuzzFn pid room mode = room
  ∧ awardCorrectAnswerFn pid room mode now = room
  ∧ awardWrongAnswerFn pid room mode now = room
  ∧ awardSuperAnswerFn pid room now = room
  ∧ awardPointsFn pid room amount = room
  ∧ subtractPlayerPointsFn pid room amount = room
  ∧ rejectAnswerFn pid room = room

/-- C9: every host-authority mutation of the room context — mode change,
buzz enable/disable, countdown start/stop, buzz reset and all the
adjudication/point-award operations — performs no store write and leaves
the room unchanged when the caller's player record is not marked
`isHost`. -/
theorem C9_host_guard : ∀ (pid : String) (room : RoomData) (mode : Option GameMode)
    (gm : GameMode) (now : Nat) (amount : Int), isHostOf pid room = false →
    HostGuardSpec pid room mode gm now amount := by
  intro pid room mode gm now amount h
  unfold HostGuardSpec setGameModeFn enableBuzzFn disableBuzzFn startCountdownFnActions
    stopCountdownFn handleResetBuzzFn awardCorrectAnswerFn awardWrongAnswerFn
    awardSuperAnswerFn awardPointsFn subtractPlayerPointsFn rejectAnswerFn
  simp [h]

/-- C9 witness: the guard applied for the concrete non-host caller "A". -/
theorem C9_host_guard_witness :
    HostGuardSpec "A" raceRoom (some expertMode) turnBasedMode 3 7 :=
  C9_host_guard "A" raceRoom (some expertMode) turnBasedMode 3 7 (by decide)

/-- C10: when the host resets the buzz under expert mode with a current
song set, only that song's `songAttempts` entry is removed; the attempt
set of every other song is unchanged. -/
theorem C10_reset_expert_frame : ∀ (pid : String) (room : RoomData)
    (mode : Option GameMode) (s : String),
    isHostOf pid room = true → isExpertType mode = true →
    room.currentSong = some s → s ≠ "" →
    List.lookup s (handleResetBuzzFn pid room mode).songAttempts = none
    ∧ ∀ k, k ≠ s → List.lookup k (handleResetBuzzFn pid room mode).songAttempts
        = List.lookup k room.songAttempts := by
  intro pid room mode s hh he hs hne
  have h1 : jsTruthyStr room.currentSong = true := by
    rw [hs]; simpa [jsTruthyStr] using hne
  unfold handleResetBuzzFn
  simp only [hh, Bool.not_true, Bool.false_eq_true, if_false, he, h1, Bool.and_self, if_true]
  constructor
  · simp [resetBuzzM, hs, lookup_delKey_self]
  · intro k hk
    simpa [resetBuzzM, hs] using lookup_delKey_ne k s hk room.songAttempts

/-- C10 witness: the frame property applied at a concrete expert round
with attempts recorded for "s1" and "s2", reset by the host "host1". -/
theorem C10_reset_expert_frame_witness :
    List.lookup "s1"
        (handleResetBuzzFn "host1" expertRoomAttempted (some expertMode)).songAttempts = none
  ∧ List.lookup "s2"
        (handleResetBuzzFn "host1" expertRoomAttempted (some expertMode)).songAttempts
      = List.lookup "s2" expertRoomAttempted.songAttempts :=
  ⟨(C10_reset_expert_frame "host1" expertRoomAttempted (some expertMode) "s1"
      (by decide) (by decide) (by decide) (by decide)).1,
   (C10_reset_expert_frame "host1" expertRoomAttempted (some expertMode) "s1"
      (by decide) (by decide) (by decide) (by decide)).2 "s2" (by decide)⟩

end Buzz
